import Mathlib

/-!
Verification of the event-driven notification pipeline of the cpp-chat-system
repository: the RabbitMQ consumer of the notification service
(`notification-service`, file modelled from the consumer source with the
`SMTPClient` injection, classes `RabbitMQConsumer` / `SMTPClient`) and the
publisher of the api-server (`RabbitMQClient.hpp`).

The C++ code is embedded shallowly: JSON payloads become an inductive `Json`
value, the nlohmann `value(key, default)` accessor becomes `valueStr` /
`valueInt` returning `Except Unit _` (the `.error` case models the
`type_error` exception thrown on a wrong-typed or non-object access, which the
handlers catch with their generic `std::exception` handler), external effects
(sendEmail invocations, log lines) are collected in result structures, and
external oracles (the outcome of the broker RPCs, the SMTP transport result,
the environment, the wall clock) become explicit parameters.
-/

set_option autoImplicit false

/-- JSON values, the model of nlohmann `json` payloads. -/
inductive Json where
  | jnull
  | jbool (b : Bool)
  | jnum (n : Int)
  | jstr (s : String)
  | jarr (xs : List Json)
  | jobj (fields : List (String × Json))

/-- First binding of a key in an object field list (objects hold unique keys). -/
def lookupField : List (String × Json) → String → Option Json
  | [], _ => none
  | (k, v) :: rest, key => if k == key then some v else lookupField rest key

/-- Field lookup on a JSON value; `none` when the value is not an object or
lacks the key. -/
def jlookup (j : Json) (key : String) : Option Json :=
  match j with
  | .jobj fs => lookupField fs key
  | _ => none

/-- Model of nlohmann `eventData.value(key, defaultString)`: the default when
the key is absent, the string when present as a string, and a thrown
`type_error` (`.error`) when the receiver is not an object or the field has a
non-string type. -/
def valueStr (j : Json) (key dflt : String) : Except Unit String :=
  match j with
  | .jobj fs =>
    match lookupField fs key with
    | none => .ok dflt
    | some (.jstr s) => .ok s
    | some _ => .error ()
  | _ => .error ()

/-- Model of nlohmann `eventData.value(key, defaultInt)`; same conventions as
`valueStr`. -/
def valueInt (j : Json) (key : String) (dflt : Int) : Except Unit Int :=
  match j with
  | .jobj fs =>
    match lookupField fs key with
    | none => .ok dflt
    | some (.jnum n) => .ok n
    | some _ => .error ()
  | _ => .error ()

/-- A message body as received from the broker: the raw text together with the
outcome of `json::parse` (an external library call; `none` models a thrown
`json::parse_error`). -/
structure Body where
  raw : String
  parsed : Option Json

/-- One `smtpClient_->sendEmail(recipientEmail, subject, body)` invocation. -/
structure Email where
  rcpt : String
  subject : String
  body : String
  deriving DecidableEq

/-- The log lines of the consumer that the specification talks about, one
constructor per `std::cout` / `std::cerr` site (purely cosmetic lines of the
simulated path are folded into their adjacent constructors). -/
inductive LogLine where
  /-- The NEW EVENT header block of `processEvent` (includes the wall time). -/
  | eventHeader (now routingKey payload : String)
  /-- "SMTP not configured - simulating email send" -/
  | smtpNotConfigured
  /-- The simulated-path Subject line of `simulateEmailSend`. -/
  | simSubject (s : String)
  /-- The `simulateEmailDelay` sleep, in milliseconds. -/
  | simDelayMs (ms : Nat)
  /-- "Email simulated successfully (SMTP not configured)" -/
  | simulatedOk
  /-- "Unknown event type: ..." / "Skipping notification." -/
  | unknownEvent (routingKey : String)
  /-- "JSON parse error: ..." with the offending raw payload. -/
  | parseError (payload : String)
  /-- The generic `catch (const std::exception)` log of a handler. -/
  | handlerError
  /-- "No email provided in event payload. Skipping email." -/
  | skipNoEmail
  /-- "Invalid recipient email, skipping..." -/
  | invalidRecipient
  /-- "No valid email found in payload, skipping..." -/
  | noValidEmail
  /-- "Using test recipient from env: ..." -/
  | usingTestRecipient (r : String)
  /-- "Sending to sender: ..." -/
  | sendingToSender (r : String)
  /-- The per-handler success line after `sendEmail` returned true. -/
  | sentOk (rcpt : String)
  /-- The per-handler failure line after `sendEmail` returned false. -/
  | sendFailed
  /-- "No messages (timeout), waiting..." -/
  | heartbeat (now : String)
  /-- "Error consuming message" -/
  | consumeError
  /-- "Unexpected response type" -/
  | unexpectedResponse
  deriving DecidableEq

/-- The observable outcome of one handler or of one `processEvent` call:
the `sendEmail` invocations made, in order, and the log lines written. -/
structure HandlerResult where
  sends : List Email
  logs : List LogLine
  deriving DecidableEq

/-- An apostrophe, kept out of string literals. -/
def apos : String := String.singleton (Char.ofNat 39)

/-- Fields extracted by `sendWelcomeEmail` (source lines 390-392). -/
structure WelcomeFields where
  email : String
  username : String
  userId : Int

/-- The field-extraction stage of `sendWelcomeEmail`, in source order. -/
def welcomeFields (j : Json) : Except Unit WelcomeFields := do
  let email ← valueStr j "email" "unknown@example.com"
  let username ← valueStr j "username" "User"
  let userId ← valueInt j "user_id" 0
  pure ⟨email, username, userId⟩

/-- `RabbitMQConsumer::sendWelcomeEmail` (source lines 382-428).
`sendOk` is the external result of the one possible `sendEmail` call. -/
def sendWelcomeEmail (sendOk : Bool) (b : Body) : HandlerResult :=
  match b.parsed with
  | none => ⟨[], [.parseError b.raw]⟩
  | some j =>
    match welcomeFields j with
    | .error _ => ⟨[], [.handlerError]⟩
    | .ok f =>
      if f.email == "unknown@example.com" then
        ⟨[], [.skipNoEmail]⟩
      else
        let subject := "Welcome to C++ Chat System, " ++ f.username ++ "!"
        let body :=
          "Hello " ++ f.username ++ "!\n\n" ++
          "Your account (ID: " ++ toString f.userId ++
          ") has been successfully created.\n\n" ++
          "---\n" ++
          "Your email: " ++ f.email
        ⟨[⟨f.email, subject, body⟩],
         [if sendOk then .sentOk f.email else .sendFailed]⟩

/-- Fields extracted by `sendMessageNotification` before recipient resolution
(source lines 444-450); `timestamp` is read later, while building the body. -/
structure MsgFields where
  messageId : Int
  roomId : Int
  senderUsername : String
  senderEmail : String
  roomName : String
  content : String
  messageType : String

/-- The field-extraction stage of `sendMessageNotification`, in source order. -/
def msgFields (j : Json) : Except Unit MsgFields := do
  let messageId ← valueInt j "message_id" 0
  let roomId ← valueInt j "room_id" 0
  let senderUsername ← valueStr j "sender_username" "Unknown User"
  let senderEmail ← valueStr j "sender_email" ""
  let roomName ← valueStr j "room_name" "Unknown Room"
  let content ← valueStr j "content" ""
  let messageType ← valueStr j "message_type" "text"
  pure ⟨messageId, roomId, senderUsername, senderEmail, roomName, content, messageType⟩

/-- The recipient-override step of `sendMessageNotification` (source lines
461-469): `testRecipient` is the value of `getenv("TEST_EMAIL_RECIPIENT")`
(`none` when unset); the C condition `strlen(testRecipient) > 0` is the
non-emptiness test. -/
def resolveRecipient (testRecipient : Option String) (senderEmail : String) : String :=
  match testRecipient with
  | some t => if t == "" then senderEmail else t
  | none => senderEmail

/-- The resolved recipient of a `message.created` payload: the extracted
`sender_email` (line 447) run through the override step (lines 461-469). -/
def messageResolvedRecipient (testRecipient : Option String) (j : Json) :
    Except Unit String :=
  (valueStr j "sender_email" "").map (resolveRecipient testRecipient)

/-- The recipient validation shared by `sendMessageNotification` (line 472)
and `sendRoomJoinNotification` (line 536): empty, or without an "@". -/
def invalidRecipientB (e : String) : Bool :=
  (e == "") || !(e.toList.contains '@')

/-- The log line announcing the chosen recipient (source lines 463-469):
the override branch logs the test recipient, the other branch the sender. -/
def recipientLog (testRecipient : Option String) (recipientEmail : String) :
    LogLine :=
  match testRecipient with
  | some t =>
    if t == "" then .sendingToSender recipientEmail
    else .usingTestRecipient recipientEmail
  | none => .sendingToSender recipientEmail

/-- `RabbitMQConsumer::sendMessageNotification` (source lines 437-506). -/
def sendMessageNotification (testRecipient : Option String) (sendOk : Bool)
    (b : Body) : HandlerResult :=
  match b.parsed with
  | none => ⟨[], [.parseError b.raw]⟩
  | some j =>
    match msgFields j with
    | .error _ => ⟨[], [.handlerError]⟩
    | .ok f =>
      let recipientEmail := resolveRecipient testRecipient f.senderEmail
      let recLog : LogLine := recipientLog testRecipient recipientEmail
      if invalidRecipientB recipientEmail then
        ⟨[], [recLog, .invalidRecipient]⟩
      else
        match valueStr j "timestamp" "N/A" with
        | .error _ => ⟨[], [recLog, .handlerError]⟩
        | .ok ts =>
          let subject := "New message in \"" ++ f.roomName ++ "\""
          let body :=
            "Hello!\n\n" ++
            "You have a new message in one of your chat rooms.\n\n" ++
            "Room: " ++ f.roomName ++ " (ID: " ++ toString f.roomId ++ ")\n" ++
            "From: " ++ f.senderUsername ++ "\n" ++
            "Message Type: " ++ f.messageType ++ "\n\n" ++
            "Message:\n" ++
            "─────────────────────────────────────\n" ++
            "\"" ++ f.content ++ "\"\n" ++
            "─────────────────────────────────────\n\n" ++
            "---\n" ++
            "Message ID: " ++ toString f.messageId ++ "\n" ++
            "Timestamp: " ++ ts
          ⟨[⟨recipientEmail, subject, body⟩],
           [recLog, if sendOk then .sentOk recipientEmail else .sendFailed]⟩

/-- Fields extracted by `sendRoomJoinNotification` (source lines 523-528). -/
structure RoomFields where
  roomId : Int
  userId : Int
  roomName : String
  username : String
  userEmail : String
  role : String

/-- The field-extraction stage of `sendRoomJoinNotification`, in source order. -/
def roomFields (j : Json) : Except Unit RoomFields := do
  let roomId ← valueInt j "room_id" 0
  let userId ← valueInt j "user_id" 0
  let roomName ← valueStr j "room_name" "Unknown Room"
  let username ← valueStr j "username" "User"
  let userEmail ← valueStr j "user_email" ""
  let role ← valueStr j "role" "member"
  pure ⟨roomId, userId, roomName, username, userEmail, role⟩

/-- `RabbitMQConsumer::sendRoomJoinNotification` (source lines 515-572). -/
def sendRoomJoinNotification (sendOk : Bool) (b : Body) : HandlerResult :=
  match b.parsed with
  | none => ⟨[], [.parseError b.raw]⟩
  | some j =>
    match roomFields j with
    | .error _ => ⟨[], [.handlerError]⟩
    | .ok f =>
      if invalidRecipientB f.userEmail then
        ⟨[], [.noValidEmail]⟩
      else
        let recipientEmail := f.userEmail
        let subject := "You" ++ apos ++ "ve been added to \"" ++ f.roomName ++ "\"!"
        let body :=
          "Hello " ++ f.username ++ "!\n\n" ++
          "You have been added to a new chat room.\n\n" ++
          "Room Details:\n" ++
          "─────────────────────────────────────\n" ++
          "Name: " ++ f.roomName ++ "\n" ++
          "Room ID: " ++ toString f.roomId ++ "\n" ++
          "Your Role: " ++ f.role ++ "\n" ++
          "─────────────────────────────────────\n\n" ++
          "---\n" ++
          "User ID: " ++ toString f.userId ++ "\n" ++
          "Email: " ++ recipientEmail
        ⟨[⟨recipientEmail, subject, body⟩],
         [if sendOk then .sentOk recipientEmail else .sendFailed]⟩

/-- The SMTP client configuration (class `SMTPClient` of the notification
service, constructor fields). -/
structure SMTPClient where
  smtpServer : String
  smtpPort : Int
  username : String
  password : String

/-- `SMTPClient::isConfigured` (notification-service main.cpp lines 472-478). -/
def SMTPClient.isConfigured (c : SMTPClient) : Bool :=
  !(c.smtpServer == "") && !(c.username == "") && !(c.password == "") &&
    decide (0 < c.smtpPort)

/-- The `!smtpClient_ || !smtpClient_->isConfigured()` test of `processEvent`
(line 317), negated: true when a configured client is present. -/
def smtpActive (smtp : Option SMTPClient) : Bool :=
  match smtp with
  | none => false
  | some c => c.isConfigured

/-- `RabbitMQConsumer::simulateEmailSend` (source lines 350-364), including
the 1500 ms `simulateEmailDelay` and the unconditional success line. -/
def simulateEmailSend (routingKey : String) : HandlerResult :=
  let subjLogs : List LogLine :=
    if routingKey == "user.registered" then
      [.simSubject "Welcome to C++ Chat System!"]
    else if routingKey == "message.created" then
      [.simSubject "New message in your chat room"]
    else if routingKey == "user.joined_room" then
      [.simSubject ("You" ++ apos ++ "ve joined a new room!")]
    else []
  ⟨[], subjLogs ++ [.simDelayMs 1500, .simulatedOk]⟩

/-- `RabbitMQConsumer::processEvent` (source lines 309-334). `now` is the
wall-clock string of `getCurrentTime`, used only in the event header log;
`testRecipient` is the `TEST_EMAIL_RECIPIENT` environment value. -/
def processEvent (smtp : Option SMTPClient) (testRecipient : Option String)
    (sendOk : Bool) (now : String) (routingKey : String) (b : Body) :
    HandlerResult :=
  let r : HandlerResult :=
    if !(smtpActive smtp) then
      let s := simulateEmailSend routingKey
      ⟨s.sends, LogLine.smtpNotConfigured :: s.logs⟩
    else if routingKey == "user.registered" then sendWelcomeEmail sendOk b
    else if routingKey == "message.created" then
      sendMessageNotification testRecipient sendOk b
    else if routingKey == "user.joined_room" then sendRoomJoinNotification sendOk b
    else ⟨[], [.unknownEvent routingKey]⟩
  ⟨r.sends, LogLine.eventHeader now routingKey b.raw :: r.logs⟩

/-- One `amqp_consume_message` outcome in `startConsuming` (source lines
256-294): a delivered envelope, a timeout, another library error, or an
unexpected response type. -/
inductive ConsumeResult where
  | delivered (routingKey : String) (b : Body)
  | timeout
  | libraryError
  | otherResponse

/-- Whether the consume loop runs another iteration or breaks. -/
inductive LoopAct where
  | next
  | stop
  deriving DecidableEq

/-- One iteration of `RabbitMQConsumer::startConsuming` (source lines
243-295): what the loop does with one `amqp_consume_message` outcome. -/
def consumeStep (smtp : Option SMTPClient) (testRecipient : Option String)
    (sendOk : Bool) (now : String) : ConsumeResult → LoopAct × HandlerResult
  | .delivered rk b => (.next, processEvent smtp testRecipient sendOk now rk b)
  | .timeout => (.next, ⟨[], [.heartbeat now]⟩)
  | .libraryError => (.stop, ⟨[], [.consumeError]⟩)
  | .otherResponse => (.stop, ⟨[], [.unexpectedResponse]⟩)

/-- The external outcomes of the broker RPCs issued by the
`RabbitMQConsumer` constructor, in source order (lines 47-214). The three
`amqp_queue_bind` calls also have outcomes, listed here because the calls are
made, even though the source never reads a bind reply. -/
structure ConnOutcomes where
  socketCreated : Bool
  socketOpened : Bool
  loginOk : Bool
  channelOk : Bool
  exchangeOk : Bool
  queueOk : Bool
  bindRegisteredOk : Bool
  bindMessageOk : Bool
  bindJoinedOk : Bool
  consumeOk : Bool

/-- The `connected_` flag produced by the `RabbitMQConsumer` constructor
(source lines 47-214): each checked step returns early on failure; the bind
results are never checked (the source discards the replies of the three
`amqp_queue_bind` calls at lines 155-185). -/
def consumerConnect (o : ConnOutcomes) : Bool :=
  if !o.socketCreated then false
  else if !o.socketOpened then false
  else if !o.loginOk then false
  else if !o.channelOk then false
  else if !o.exchangeOk then false
  else if !o.queueOk then false
  else if !o.consumeOk then false
  else true

/-- The exit status of the notification-service `main` (source lines 644-664)
as a function of `consumer.isConnected()`: `some 1` on connection failure,
`none` when the process enters the unbounded `startConsuming` loop and never
returns. -/
def mainExitCode (consumerConnected : Bool) : Option Int :=
  if !consumerConnected then some 1 else none

/-- Model of `std::atoi` digit accumulation. -/
def digitsVal : List Char → Int → Int
  | c :: cs, acc =>
    if c.isDigit then digitsVal cs (acc * 10 + ((c.toNat : Int) - 48)) else acc
  | [], acc => acc

/-- Model of `std::atoi`: optional leading whitespace, optional sign, then a
digit run (0 when no digits). -/
def atoi (s : String) : Int :=
  match s.toList.dropWhile (fun c => c == ' ' || c == '\t' || c == '\n' || c == '\r') with
  | '-' :: cs => - digitsVal cs 0
  | '+' :: cs => digitsVal cs 0
  | cs => digitsVal cs 0

/-- The SMTP-selection logic of the notification-service `main` (source lines
598-626): all four environment variables must be present, and the constructed
client must pass `isConfigured`, otherwise the consumer runs with no client. -/
def selectSmtpClient (host portStr user pass : Option String) :
    Option SMTPClient :=
  match host, portStr, user, pass with
  | some h, some p, some u, some w =>
    let c : SMTPClient := ⟨h, atoi p, u, w⟩
    if c.isConfigured then some c else none
  | _, _, _, _ => none

/-- A log line of `RabbitMQClient::publishEvent` (api-server
RabbitMQClient.hpp lines 108-146). -/
inductive PubLog where
  /-- "RabbitMQ not connected" -/
  | notConnected
  /-- "Failed to publish message" -/
  | publishFailed
  /-- "Published event: ..." (body truncated in the real log). -/
  | published (routingKey messageBody : String)
  deriving DecidableEq

/-- The observable outcome of one `publishEvent` call: the
`amqp_basic_publish` attempts made (routing key and serialized body) and the
log lines written. -/
structure PubResult where
  attempts : List (String × String)
  logs : List PubLog
  deriving DecidableEq

/-- `RabbitMQClient::publishEvent` (RabbitMQClient.hpp lines 108-146).
`connected` is the `connected_ && conn_` guard, `brokerOk` the external
outcome of the single `amqp_basic_publish` call, `messageBody` the
already-serialized `eventData.dump()`. -/
def publishEvent (connected brokerOk : Bool) (routingKey messageBody : String) :
    PubResult :=
  if !connected then ⟨[], [.notConnected]⟩
  else if brokerOk then
    ⟨[(routingKey, messageBody)], [.published routingKey messageBody]⟩
  else ⟨[(routingKey, messageBody)], [.publishFailed]⟩

/-- The value returned to the caller by `RabbitMQClient::publishEvent`: the
function is declared `void` in the source (RabbitMQClient.hpp line 108), so
every call returns the unit value, whatever the outcome. -/
def publishEventRet (_connected _brokerOk : Bool)
    (_routingKey _messageBody : String) : Unit := ()

/-- True when the pattern list is a leading segment of the text list. -/
def charsEqFrom : List Char → List Char → Bool
  | [], _ => true
  | _ :: _, [] => false
  | p :: ps, c :: cs => p == c && charsEqFrom ps cs

/-- True when the pattern list occurs contiguously somewhere in the text. -/
def subListAt (p : List Char) : List Char → Bool
  | [] => charsEqFrom p []
  | c :: cs => charsEqFrom p (c :: cs) || subListAt p cs

/-- Substring test: `strContainsSub s pat` is true when `pat` occurs in `s`. -/
def strContainsSub (s pat : String) : Bool :=
  subListAt pat.toList s.toList

/-- The log lines the specification counts as a "logged skip": the three
dispatcher skip messages. -/
def isSkipLog : LogLine → Bool
  | .skipNoEmail => true
  | .invalidRecipient => true
  | .noValidEmail => true
  | _ => false

/-- Number of logged skips in a log list. -/
def countSkips (ls : List LogLine) : Nat := (ls.filter isSkipLog).length

/-- Number of "Unknown event type" lines in a log list. -/
def countUnknown (ls : List LogLine) : Nat :=
  (ls.filter fun l => match l with | .unknownEvent _ => true | _ => false).length

/-- Number of "JSON parse error" lines in a log list. -/
def countParseErrors (ls : List LogLine) : Nat :=
  (ls.filter fun l => match l with | .parseError _ => true | _ => false).length

/-- The recipient-announcement line is never a skip line. -/
theorem isSkipLog_recipientLog (tr : Option String) (e : String) :
    isSkipLog (recipientLog tr e) = false := by
  cases tr with
  | none => rfl
  | some t => by_cases h : t == "" <;> simp [recipientLog, isSkipLog, h]

/-- A `user.registered` payload whose email field is the empty string. -/
def c1Payload : Body := ⟨"c1", some (Json.jobj [("email", Json.jstr "")])⟩

/-- Claim C1, counterexample. The claim asserts that every payload whose
resolved recipient email is the empty string yields zero sendEmail calls and
one logged skip, for every event type. For the `user.registered` event the
code only compares the extracted email against the literal default
`unknown@example.com` (source lines 390-397), so the payload with email `""`
is passed to the transport: one sendEmail call is made and no skip is logged. -/
theorem claim_c1_counterexample :
    (sendWelcomeEmail true c1Payload).sends.length = 1 ∧
    countSkips (sendWelcomeEmail true c1Payload).logs = 0 := by
  decide

/-- Claim C1, amended: for `message.created` and `user.joined_room`, a payload
whose fields extract cleanly and whose resolved recipient is empty or lacks
an "@" yields zero sendEmail calls and exactly one logged skip; for
`user.registered` the same holds exactly when the extracted email is the
absent-field default `unknown@example.com` (the only value the handler
treats as missing). -/
theorem claim_c1_amended
    (testRecipient : Option String) (sendOk : Bool)
    (rawm rawr raww : String) (jm jr jw : Json)
    (mf : MsgFields) (rf : RoomFields) (wf : WelcomeFields)
    (hm : msgFields jm = .ok mf)
    (hmv : invalidRecipientB (resolveRecipient testRecipient mf.senderEmail) = true)
    (hr : roomFields jr = .ok rf)
    (hrv : invalidRecipientB rf.userEmail = true)
    (hw : welcomeFields jw = .ok wf)
    (hwv : wf.email = "unknown@example.com") :
    ((sendMessageNotification testRecipient sendOk ⟨rawm, some jm⟩).sends = [] ∧
      countSkips (sendMessageNotification testRecipient sendOk ⟨rawm, some jm⟩).logs = 1) ∧
    ((sendRoomJoinNotification sendOk ⟨rawr, some jr⟩).sends = [] ∧
      countSkips (sendRoomJoinNotification sendOk ⟨rawr, some jr⟩).logs = 1) ∧
    ((sendWelcomeEmail sendOk ⟨raww, some jw⟩).sends = [] ∧
      countSkips (sendWelcomeEmail sendOk ⟨raww, some jw⟩).logs = 1) := by
  refine ⟨⟨?_, ?_⟩, ⟨?_, ?_⟩, ⟨?_, ?_⟩⟩
  · simp [sendMessageNotification, hm, hmv]
  · have hres : (sendMessageNotification testRecipient sendOk ⟨rawm, some jm⟩).logs
        = [recipientLog testRecipient (resolveRecipient testRecipient mf.senderEmail),
           LogLine.invalidRecipient] := by
      simp [sendMessageNotification, hm, hmv]
    rw [hres]
    rcases testRecipient with _ | t
    · simp [countSkips, recipientLog, isSkipLog]
    · by_cases ht : t == "" <;> simp [countSkips, recipientLog, isSkipLog, ht]
  · simp [sendRoomJoinNotification, hr, hrv]
  · simp [sendRoomJoinNotification, hr, hrv, countSkips, isSkipLog]
  · simp [sendWelcomeEmail, hw, hwv]
  · simp [sendWelcomeEmail, hw, hwv, countSkips, isSkipLog]

/-- Witness for the amended claim C1: empty payloads default every recipient
to the invalid empty string (`user.registered` defaults to the sentinel),
so all three handlers skip with zero sends and one skip line each. -/
theorem claim_c1_witness :
    ((sendMessageNotification none true ⟨"m", some (Json.jobj [])⟩).sends = [] ∧
      countSkips (sendMessageNotification none true ⟨"m", some (Json.jobj [])⟩).logs = 1) ∧
    ((sendRoomJoinNotification true ⟨"r", some (Json.jobj [])⟩).sends = [] ∧
      countSkips (sendRoomJoinNotification true ⟨"r", some (Json.jobj [])⟩).logs = 1) ∧
    ((sendWelcomeEmail true ⟨"w", some (Json.jobj [])⟩).sends = [] ∧
      countSkips (sendWelcomeEmail true ⟨"w", some (Json.jobj [])⟩).logs = 1) :=
  claim_c1_amended none true "m" "r" "w" (Json.jobj []) (Json.jobj []) (Json.jobj [])
    ⟨0, 0, "Unknown User", "", "Unknown Room", "", "text"⟩
    ⟨0, 0, "Unknown Room", "User", "", "member"⟩
    ⟨"unknown@example.com", "User", 0⟩
    rfl (by decide) rfl (by decide) rfl rfl

/-- Claim C2: for a `message.created` payload carrying `sender_email` as a
string, the resolved recipient is that sender email when no
`TEST_EMAIL_RECIPIENT` override is set, and is the override value whenever a
non-empty override is set, regardless of the payload. -/
theorem claim_c2 (j : Json) (s ov : String)
    (h : jlookup j "sender_email" = some (.jstr s)) (hov : ov ≠ "") :
    messageResolvedRecipient none j = .ok s ∧
    messageResolvedRecipient (some ov) j = .ok ov := by
  cases j with
  | jobj fs =>
    simp only [jlookup] at h
    have hv : valueStr (Json.jobj fs) "sender_email" "" = .ok s := by
      simp only [valueStr, h]
    constructor
    · simp [messageResolvedRecipient, hv, Except.map, resolveRecipient]
    · simp [messageResolvedRecipient, hv, Except.map, resolveRecipient, hov]
  | jnull => simp [jlookup] at h
  | jbool b => simp [jlookup] at h
  | jnum n => simp [jlookup] at h
  | jstr s2 => simp [jlookup] at h
  | jarr xs => simp [jlookup] at h

/-- Witness for claim C2 at a concrete payload and the override of the spec. -/
theorem claim_c2_witness :
    messageResolvedRecipient none
        (Json.jobj [("sender_email", Json.jstr "bob@x.com")]) = .ok "bob@x.com" ∧
      messageResolvedRecipient (some "qa@x.com")
        (Json.jobj [("sender_email", Json.jstr "bob@x.com")]) = .ok "qa@x.com" :=
  claim_c2 (Json.jobj [("sender_email", Json.jstr "bob@x.com")])
    "bob@x.com" "qa@x.com" rfl (by decide)

/-- The concrete `user.registered` dispatch of claim C3. -/
def c3Dispatch : HandlerResult :=
  sendWelcomeEmail true
    ⟨"c3", some (Json.jobj [("email", Json.jstr "a@b.com"),
      ("username", Json.jstr "alice"), ("user_id", Json.jnum 7)])⟩

/-- Claim C3: dispatching `user.registered` with email `a@b.com`, username
`alice` and user id 7 yields exactly one sendEmail call whose recipient is
`a@b.com`, whose subject contains `alice`, and whose body contains `7` and
`a@b.com`. -/
theorem claim_c3 :
    c3Dispatch.sends.length = 1 ∧
    c3Dispatch.sends.map Email.rcpt = ["a@b.com"] ∧
    (c3Dispatch.sends.all fun m =>
      strContainsSub m.subject "alice" && strContainsSub m.body "7" &&
        strContainsSub m.body "a@b.com") = true := by
  decide

/-- The sendEmail invocations of `sendWelcomeEmail` do not depend on the
transport outcome (it only selects the success or failure log line). -/
theorem sendWelcomeEmail_sends_oracle (a c : Bool) (b : Body) :
    (sendWelcomeEmail a b).sends = (sendWelcomeEmail c b).sends := by
  rcases b with ⟨raw, parsed⟩
  cases parsed with
  | none => rfl
  | some j =>
    cases hw : welcomeFields j with
    | error e => simp [sendWelcomeEmail, hw]
    | ok f =>
      by_cases h : f.email == "unknown@example.com" <;>
        simp [sendWelcomeEmail, hw, h]

/-- The sendEmail invocations of `sendMessageNotification` do not depend on
the transport outcome. -/
theorem sendMessageNotification_sends_oracle (tr : Option String) (a c : Bool)
    (b : Body) :
    (sendMessageNotification tr a b).sends = (sendMessageNotification tr c b).sends := by
  rcases b with ⟨raw, parsed⟩
  cases parsed with
  | none => rfl
  | some j =>
    cases hw : msgFields j with
    | error e => simp [sendMessageNotification, hw]
    | ok f =>
      by_cases h : invalidRecipientB (resolveRecipient tr f.senderEmail)
      · simp [sendMessageNotification, hw, h]
      · cases ht : valueStr j "timestamp" "N/A" <;>
          simp [sendMessageNotification, hw, h, ht]

/-- The sendEmail invocations of `sendRoomJoinNotification` do not depend on
the transport outcome. -/
theorem sendRoomJoinNotification_sends_oracle (a c : Bool) (b : Body) :
    (sendRoomJoinNotification a b).sends = (sendRoomJoinNotification c b).sends := by
  rcases b with ⟨raw, parsed⟩
  cases parsed with
  | none => rfl
  | some j =>
    cases hw : roomFields j with
    | error e => simp [sendRoomJoinNotification, hw]
    | ok f =>
      by_cases h : invalidRecipientB f.userEmail <;>
        simp [sendRoomJoinNotification, hw, h]

/-- Claim C4: rendering is deterministic. For any event type and payload,
two `processEvent` runs with the same payload and the same configuration
environment produce the same list of (recipient, subject, body) transport
tuples, whatever the wall clock reads on either run and whatever the
transport reports back. -/
theorem claim_c4 (smtp : Option SMTPClient) (testRecipient : Option String)
    (sendOk1 sendOk2 : Bool) (now1 now2 : String) (rk : String) (b : Body) :
    (processEvent smtp testRecipient sendOk1 now1 rk b).sends =
      (processEvent smtp testRecipient sendOk2 now2 rk b).sends := by
  by_cases hs : smtpActive smtp
  · by_cases h1 : rk == "user.registered"
    · simpa [processEvent, hs, h1] using sendWelcomeEmail_sends_oracle sendOk1 sendOk2 b
    · by_cases h2 : rk == "message.created"
      · simpa [processEvent, hs, h1, h2] using
          sendMessageNotification_sends_oracle testRecipient sendOk1 sendOk2 b
      · by_cases h3 : rk == "user.joined_room"
        · simpa [processEvent, hs, h1, h2, h3] using
            sendRoomJoinNotification_sends_oracle sendOk1 sendOk2 b
        · simp [processEvent, hs, h1, h2, h3]
  · simp [processEvent, hs]

/-- Claim C5, counterexample. The claim asserts that the publish operation
returns a boolean result, failure on a disconnected or failed publish and
success otherwise. `RabbitMQClient::publishEvent` is declared `void`
(RabbitMQClient.hpp line 108): the value returned on the disconnected
failure path is the very value returned on the success path, so no returned
result distinguishes failure from success. -/
theorem claim_c5_counterexample :
    publishEventRet false true "message.created" "x" =
      publishEventRet true true "message.created" "x" := rfl

/-- Claim C5, amended: `publishEvent` returns nothing; when disconnected it
logs "RabbitMQ not connected" and performs no broker publish, otherwise it
performs exactly one `amqp_basic_publish` attempt and logs a warning when the
attempt fails; in every case it makes at most one attempt (no retry). -/
theorem claim_c5_amended (connected brokerOk : Bool) (rk body : String) :
    (publishEvent connected brokerOk rk body).attempts =
      (if connected then [(rk, body)] else []) ∧
    (publishEvent connected brokerOk rk body).attempts.length ≤ 1 ∧
    (publishEvent connected brokerOk rk body).logs =
      (if !connected then [PubLog.notConnected]
       else if brokerOk then [PubLog.published rk body]
       else [PubLog.publishFailed]) := by
  cases connected <;> cases brokerOk <;> simp [publishEvent]

/-- A well-formed but unhandled payload used for the C6 statements. -/
def c6Body : Body := ⟨"c6", some (Json.jobj [])⟩

/-- Claim C6, counterexample. The claim asserts one logged "unknown event
type" line for every routing key outside the closed set. When the SMTP
transport is not configured, `processEvent` branches to `simulateEmailSend`
before inspecting the routing key (source lines 317-321), so the unknown key
`room.deleted` is processed with zero transport invocations but also zero
"unknown event type" lines. -/
theorem claim_c6_counterexample :
    (processEvent none none true "t" "room.deleted" c6Body).sends = [] ∧
    countUnknown (processEvent none none true "t" "room.deleted" c6Body).logs = 0 := by
  decide

/-- Claim C6, amended: a routing key outside the closed set always yields
zero transport invocations and the loop continues with the next message;
exactly one "unknown event type" line is logged when the SMTP transport is
configured, and none (a simulated send is logged instead) when it is not. -/
theorem claim_c6_amended (smtp : Option SMTPClient) (testRecipient : Option String)
    (sendOk : Bool) (now : String) (rk : String) (b : Body)
    (h1 : rk ≠ "user.registered") (h2 : rk ≠ "message.created")
    (h3 : rk ≠ "user.joined_room") :
    (processEvent smtp testRecipient sendOk now rk b).sends = [] ∧
    (smtpActive smtp = true →
      countUnknown (processEvent smtp testRecipient sendOk now rk b).logs = 1) ∧
    (smtpActive smtp = false →
      countUnknown (processEvent smtp testRecipient sendOk now rk b).logs = 0) ∧
    (consumeStep smtp testRecipient sendOk now (.delivered rk b)).1 = .next := by
  refine ⟨?_, fun hs => ?_, fun hs => ?_, rfl⟩
  · by_cases hs : smtpActive smtp <;>
      simp [processEvent, hs, h1, h2, h3, simulateEmailSend]
  · simp [processEvent, hs, h1, h2, h3, countUnknown]
  · simp [processEvent, hs, h1, h2, h3, simulateEmailSend, countUnknown]

/-- Witness for the amended claim C6: a configured transport and the key
`room.deleted`. -/
theorem claim_c6_witness :
    (processEvent (some ⟨"smtp.example.com", 587, "u", "p"⟩) none true "n"
        "room.deleted" c6Body).sends = [] ∧
    (smtpActive (some ⟨"smtp.example.com", 587, "u", "p"⟩) = true →
      countUnknown (processEvent (some ⟨"smtp.example.com", 587, "u", "p"⟩) none
        true "n" "room.deleted" c6Body).logs = 1) ∧
    (smtpActive (some ⟨"smtp.example.com", 587, "u", "p"⟩) = false →
      countUnknown (processEvent (some ⟨"smtp.example.com", 587, "u", "p"⟩) none
        true "n" "room.deleted" c6Body).logs = 0) ∧
    (consumeStep (some ⟨"smtp.example.com", 587, "u", "p"⟩) none true "n"
        (.delivered "room.deleted" c6Body)).1 = .next :=
  claim_c6_amended (some ⟨"smtp.example.com", 587, "u", "p"⟩) none true "n"
    "room.deleted" c6Body (by decide) (by decide) (by decide)

/-- An unparseable body used for the C7 counterexample. -/
def c7Body : Body := ⟨"c7bad", none⟩

/-- Claim C7, counterexample. The claim asserts one logged parse error for
every unparseable body delivered with a recognized routing key. When the SMTP
transport is not configured, `processEvent` never parses the body (it
branches to `simulateEmailSend` first, source lines 317-321), so an
unparseable `message.created` body yields zero transport invocations but
also zero parse-error lines. -/
theorem claim_c7_counterexample :
    (processEvent none none true "t" "message.created" c7Body).sends = [] ∧
    countParseErrors
      (processEvent none none true "t" "message.created" c7Body).logs = 0 := by
  decide

/-- Claim C7, amended: an unparseable body delivered with one of the three
recognized routing keys always yields zero transport invocations and the
loop continues with the next message (the parse failure is caught inside the
handler and never escapes `processEvent`); exactly one parse-error line is
logged when the SMTP transport is configured, and none (a simulated send is
logged instead) when it is not. -/
theorem claim_c7_amended (smtp : Option SMTPClient) (testRecipient : Option String)
    (sendOk : Bool) (now raw : String) (rk : String)
    (hk : rk = "user.registered" ∨ rk = "message.created" ∨
      rk = "user.joined_room") :
    (processEvent smtp testRecipient sendOk now rk ⟨raw, none⟩).sends = [] ∧
    (smtpActive smtp = true →
      countParseErrors
        (processEvent smtp testRecipient sendOk now rk ⟨raw, none⟩).logs = 1) ∧
    (smtpActive smtp = false →
      countParseErrors
        (processEvent smtp testRecipient sendOk now rk ⟨raw, none⟩).logs = 0) ∧
    (consumeStep smtp testRecipient sendOk now (.delivered rk ⟨raw, none⟩)).1 = .next := by
  rcases hk with hk | hk | hk
  · subst hk
    refine ⟨?_, fun hs => ?_, fun hs => ?_, rfl⟩
    · by_cases hs : smtpActive smtp <;>
        simp [processEvent, hs, sendWelcomeEmail, simulateEmailSend]
    · simp [processEvent, hs, sendWelcomeEmail, countParseErrors]
    · simp [processEvent, hs, simulateEmailSend, countParseErrors]
  · subst hk
    refine ⟨?_, fun hs => ?_, fun hs => ?_, rfl⟩
    · by_cases hs : smtpActive smtp <;>
        simp [processEvent, hs, sendMessageNotification, simulateEmailSend]
    · simp [processEvent, hs, sendMessageNotification, countParseErrors]
    · simp [processEvent, hs, simulateEmailSend, countParseErrors]
  · subst hk
    refine ⟨?_, fun hs => ?_, fun hs => ?_, rfl⟩
    · by_cases hs : smtpActive smtp <;>
        simp [processEvent, hs, sendRoomJoinNotification, simulateEmailSend]
    · simp [processEvent, hs, sendRoomJoinNotification, countParseErrors]
    · simp [processEvent, hs, simulateEmailSend, countParseErrors]

/-- Witness for the amended claim C7: a configured transport, the key
`message.created`, and an unparseable body. -/
theorem claim_c7_witness :
    (processEvent (some ⟨"smtp.example.com", 587, "u", "p"⟩) none true "n"
        "message.created" ⟨"c7bad", none⟩).sends = [] ∧
    (smtpActive (some ⟨"smtp.example.com", 587, "u", "p"⟩) = true →
      countParseErrors (processEvent (some ⟨"smtp.example.com", 587, "u", "p"⟩)
        none true "n" "message.created" ⟨"c7bad", none⟩).logs = 1) ∧
    (smtpActive (some ⟨"smtp.example.com", 587, "u", "p"⟩) = false →
      countParseErrors (processEvent (some ⟨"smtp.example.com", 587, "u", "p"⟩)
        none true "n" "message.created" ⟨"c7bad", none⟩).logs = 0) ∧
    (consumeStep (some ⟨"smtp.example.com", 587, "u", "p"⟩) none true "n"
        (.delivered "message.created" ⟨"c7bad", none⟩)).1 = .next :=
  claim_c7_amended (some ⟨"smtp.example.com", 587, "u", "p"⟩) none true "n"
    "c7bad" "message.created" (Or.inr (Or.inl rfl))

/-- Claim C8: with no SMTP credentials the transport is unconfigured
(`isConfigured` is false on a client with empty credentials, and the startup
selection yields no client at all when the environment variables are absent),
and every event then takes the simulated path: zero sendEmail invocations
(no network call), the fixed 1500 ms simulated delay, and an unconditional
success line. -/
theorem claim_c8 (host : String) (p : Int) (testRecipient : Option String)
    (sendOk : Bool) (now rk : String) (b : Body) :
    SMTPClient.isConfigured ⟨host, p, "", ""⟩ = false ∧
    selectSmtpClient none none none none = none ∧
    (processEvent none testRecipient sendOk now rk b).sends = [] ∧
    LogLine.simDelayMs 1500 ∈ (processEvent none testRecipient sendOk now rk b).logs ∧
    LogLine.simulatedOk ∈ (processEvent none testRecipient sendOk now rk b).logs := by
  refine ⟨?_, rfl, ?_, ?_, ?_⟩
  · simp [SMTPClient.isConfigured]
  · simp [processEvent, smtpActive, simulateEmailSend]
  · simp [processEvent, smtpActive, simulateEmailSend]
  · simp [processEvent, smtpActive, simulateEmailSend]

/-- The connection-step outcomes of the C9 counterexample: every checked step
succeeds, the first `amqp_queue_bind` fails. -/
def c9Outcomes : ConnOutcomes :=
  ⟨true, true, true, true, true, true, false, true, true, true⟩

/-- Claim C9, counterexample. The claim lists the bind among the steps whose
failure aborts the sequence with `isConnected() == false` and exit status 1.
The constructor never reads the replies of the three `amqp_queue_bind` calls
(source lines 150-185 check no bind outcome), so with a failed first bind and
every checked step succeeding the constructor still sets `connected_ = true`
and the process does not exit with status 1. -/
theorem claim_c9_counterexample :
    consumerConnect c9Outcomes = true ∧
    mainExitCode (consumerConnect c9Outcomes) = none := by
  decide

/-- Claim C9, amended: if any checked step of the connection sequence
(socket creation, socket open, login, channel open, exchange declare, queue
declare, consume) fails, the whole sequence aborts with
`isConnected() == false` and the owning process exits with status 1; the
three bind calls are issued but their outcomes are never checked, so a bind
failure aborts the sequence only if it makes the later consume step fail. -/
theorem claim_c9_amended (o : ConnOutcomes)
    (h : o.socketCreated = false ∨ o.socketOpened = false ∨ o.loginOk = false ∨
      o.channelOk = false ∨ o.exchangeOk = false ∨ o.queueOk = false ∨
      o.consumeOk = false) :
    consumerConnect o = false ∧ mainExitCode (consumerConnect o) = some 1 := by
  have hc : consumerConnect o = false := by
    rcases h with h | h | h | h | h | h | h <;> simp [consumerConnect, h]
  exact ⟨hc, by simp [mainExitCode, hc]⟩

/-- Witness for the amended claim C9: a failed login aborts the sequence and
the process exits with status 1. -/
theorem claim_c9_witness :
    consumerConnect ⟨true, true, false, true, true, true, true, true, true, true⟩ = false ∧
    mainExitCode
      (consumerConnect ⟨true, true, false, true, true, true, true, true, true, true⟩) =
      some 1 :=
  claim_c9_amended ⟨true, true, false, true, true, true, true, true, true, true⟩
    (Or.inr (Or.inr (Or.inl rfl)))

/-- Claim C10: for `user.registered`, a payload whose extracted email equals
the absent-field default `unknown@example.com` (hence also a payload with no
email field at all) is skipped with zero sendEmail calls and one logged skip,
while every other extracted email value, `@` or not, becomes the recipient of
the one sendEmail call. -/
theorem claim_c10 (raw : String) (sendOk : Bool) (j : Json) (wf : WelcomeFields)
    (h : welcomeFields j = .ok wf) :
    (wf.email = "unknown@example.com" →
      (sendWelcomeEmail sendOk ⟨raw, some j⟩).sends = [] ∧
      countSkips (sendWelcomeEmail sendOk ⟨raw, some j⟩).logs = 1) ∧
    (wf.email ≠ "unknown@example.com" →
      (sendWelcomeEmail sendOk ⟨raw, some j⟩).sends.map Email.rcpt = [wf.email]) := by
  constructor
  · intro he
    constructor <;> simp [sendWelcomeEmail, h, he, countSkips, isSkipLog]
  · intro hne
    simp [sendWelcomeEmail, h, hne]

/-- A `user.registered` payload whose email has no `@` at all. -/
def c10Payload : Json := Json.jobj [("email", Json.jstr "abc")]

/-- Witness for claim C10: the at-sign-free email `abc` is accepted and
passed to the transport as the recipient. -/
theorem claim_c10_witness :
    (sendWelcomeEmail true ⟨"w10", some c10Payload⟩).sends.map Email.rcpt = ["abc"] :=
  (claim_c10 "w10" true c10Payload ⟨"abc", "User", 0⟩ rfl).2 (by decide)
